import Mathlib

/-!
Shallow embedding of the SNAKE_Engine rendering/collision core
(RenderManager batching and flush, RenderLayerManager, FrustumCuller,
Material instancing, resource registries, SpatialHashGrid filtering),
translated from `Private/Mesh.cpp`, `Private/Material.cpp`,
`Public/RenderLayerManager.h` (part_013), `Public/Object.h` (part_014),
`Public/Collider.h` and `Public/RenderManager.h`.

Pointers are modelled by structure values carrying a numeric identity
field; pointer equality is structure equality.  Machine floats of the
geometry are modelled over `ℚ`.  `Option` models nullable pointers.
-/

namespace Snake

/-- A GLSL shader program.  `SupportsInstancing()` is a stored flag set at
link time (`Shader::CheckSupportsInstancing`). -/
structure Shader where
  sid : Nat
  supportsInstancing : Bool
deriving DecidableEq, Repr

/-- A GPU texture (pointer identity only matters for the claims). -/
structure Texture where
  tid : Nat
deriving DecidableEq, Repr

/-- A mesh; `instanceAttributesSetUp` records the effect of
`Mesh::SetupInstanceAttributes()`. -/
structure Mesh where
  meshId : Nat
  instanceAttributesSetUp : Bool := false
deriving DecidableEq, Repr

/-- A material: holds a shader pointer (nullable), the instancing flag and
the uniform-name → texture map. From `Public/Material.h` /
`Private/Material.cpp`. -/
structure Material where
  mid : Nat
  shader : Option Shader
  isInstancingEnabled : Bool := false
  textures : List (String × Texture) := []
deriving DecidableEq, Repr

/-- `Material::HasTexture(Texture*)` (Material.cpp:61-71): scans the
texture map for a pointer-equal entry. -/
def Material.hasTextureRef (m : Material) (t : Texture) : Bool :=
  m.textures.any (fun p => p.2 = t)

/-- A sprite sheet (pointer identity). -/
structure SpriteSheet where
  ssId : Nat
deriving DecidableEq, Repr

/-- A baked font (pointer identity). -/
structure Font where
  fid : Nat
deriving DecidableEq, Repr

/-- A sprite animator: `GetSpriteSheet()` returns the sheet it was built
from. -/
structure SpriteAnimator where
  sheet : SpriteSheet
deriving DecidableEq, Repr

/-- A 2D camera (`Public/Camera2D.h`): position, zoom, screen size. -/
structure Camera2D where
  pos : ℚ × ℚ
  zoom : ℚ := 1
  screenWidth : Int := 800
  screenHeight : Int := 600
deriving DecidableEq, Repr

/-- Collider shapes (`Public/Collider.h`): circle with radius, AABB with
half extents.  Sizes are the scale-adjusted ones. -/
inductive ColliderShape where
  | circle (radius : ℚ)
  | aabb (halfW halfH : ℚ)
deriving DecidableEq, Repr

/-- A collider component: shape plus world-space center. -/
structure Collider where
  shape : ColliderShape
  worldPos : ℚ × ℚ
deriving DecidableEq, Repr

/-- A drawable object (`Public/Object.h`, part_014): the fields the
rendering and collision claims read. -/
structure Object where
  oid : Nat
  alive : Bool := true
  visible : Bool := true
  ignoreCamera : Bool := false
  worldPos : ℚ × ℚ := (0, 0)
  boundingRadius : ℚ := 0
  material : Option Material := none
  mesh : Option Mesh := none
  spriteAnimator : Option SpriteAnimator := none
  renderLayerTag : String := ""
  collisionCategory : Nat := 0
  collisionMask : Nat := 0
  collider : Option Collider := none
  /-- For TEXT-type objects, the font referenced through
  `GetTextInstance()->font`; `none` for non-text objects. -/
  textFont : Option Font := none
deriving DecidableEq, Repr

/-- `Material::IsInstancingSupported` (Material.cpp:20-23):
`isInstancingEnabled && shader && shader->SupportsInstancing()`. -/
def Material.isInstancingSupported (m : Material) : Bool :=
  m.isInstancingEnabled &&
    (match m.shader with
     | some sh => sh.supportsInstancing
     | none => false)

/-- `Material::EnableInstancing` (Material.cpp:24-39).  Returns the updated
material together with the (possibly updated) mesh argument, whose
instance attributes are set up when the branch is taken (mirrors
`mesh->SetupInstanceAttributes()`). -/
def Material.enableInstancing (m : Material) (enable : Bool)
    (mesh : Option Mesh) : Material × Option Mesh :=
  match m.shader with
  | some sh =>
      if !sh.supportsInstancing then
        -- SNAKE_WRN "Enable Instancing skipped ..."; return
        (m, mesh)
      else
        if !m.isInstancingEnabled then
          ({ m with isInstancingEnabled := enable },
            mesh.map (fun me => { me with instanceAttributesSetUp := true }))
        else (m, mesh)
  | none =>
      if !m.isInstancingEnabled then
        ({ m with isInstancingEnabled := enable },
          mesh.map (fun me => { me with instanceAttributesSetUp := true }))
      else (m, mesh)

/-- `Object::CanBeInstanced`.  Modelled from the spec: the implementation
file (Object.cpp) is not under src/; the declaration's documentation
(part_014:341-345) states "Requires mesh && material &&
material->IsInstancingSupported()". -/
def Object.canBeInstanced (o : Object) : Bool :=
  o.mesh.isSome && o.material.isSome &&
    (match o.material with
     | some m => m.isInstancingSupported
     | none => false)

/-! ## RenderLayerManager (part_013) -/

/-- `std::unordered_map::find` on an association list. -/
def findTag {α : Type} (m : List (String × α)) (tag : String) : Option α :=
  match m with
  | [] => none
  | (t, v) :: rest => if t = tag then some v else findTag rest tag

/-- `RenderLayerManager` state: `nameToID` map and the fixed
`std::array<std::string, 16> idToName` (empty string = unused slot). -/
structure RenderLayerManager where
  nameToID : List (String × Nat)
  idToName : Fin 16 → String

/-- The empty layer registry (fresh `RenderLayerManager`). -/
def RenderLayerManager.empty : RenderLayerManager :=
  ⟨[], fun _ => ""⟩

/-- `RenderLayerManager::GetLayerID` (part_013:29-35). -/
def RenderLayerManager.getLayerID (st : RenderLayerManager)
    (name : String) : Option Nat :=
  findTag st.nameToID name

/-- `RenderLayerManager::GetLayerName` (part_013:43-46): `idToName.at(id)`
for a valid id. -/
def RenderLayerManager.getLayerName (st : RenderLayerManager)
    (id : Fin 16) : String :=
  st.idToName id

/-- `RenderLayerManager::RegisterLayer` (part_013:63-80): rejects a
duplicate name, an out-of-range id, or an occupied slot; on success stores
both directions and returns true. -/
def RenderLayerManager.registerLayer (st : RenderLayerManager)
    (tag : String) (layer : Nat) : Bool × RenderLayerManager :=
  if (findTag st.nameToID tag).isSome then
    -- SNAKE_WRN "Layer already exists"
    (false, st)
  else if h : layer < 16 then
    if st.idToName ⟨layer, h⟩ ≠ "" then
      -- SNAKE_ERR "Layer ID already in use or out of range"
      (false, st)
    else
      (true,
        { nameToID := (tag, layer) :: st.nameToID,
          idToName := Function.update st.idToName ⟨layer, h⟩ tag })
  else
    (false, st)

/-- `std::unordered_map::erase(tag)` on an association list. -/
def eraseTag {α : Type} (m : List (String × α)) (tag : String) :
    List (String × α) :=
  m.filter (fun p => p.1 ≠ tag)

/-- `map[tag] = value` (operator[] assignment, used directly by
`RenderManager::Init` for the built-in shaders). -/
def storeTag {α : Type} (m : List (String × α)) (tag : String) (v : α) :
    List (String × α) :=
  match m with
  | [] => [(tag, v)]
  | (t, w) :: rest =>
      if t = tag then (t, v) :: rest else (t, w) :: storeTag rest tag v

/-- `RenderLayerManager::UnregisterLayer` (part_013:91-103). -/
def RenderLayerManager.unregisterLayer (st : RenderLayerManager)
    (name : String) : RenderLayerManager :=
  match findTag st.nameToID name with
  | none => st
  | some id =>
      { nameToID := st.nameToID.filter (fun p => p.1 ≠ name),
        idToName := fun i =>
          if h : id < 16 then
            Function.update st.idToName ⟨id, h⟩ "" i
          else st.idToName i }

/-! ## RenderManager resource registries (Mesh.cpp:780-1187,
RenderManager.h:273-299)

The registry-relevant state of a `RenderManager`: the six tag-keyed
ownership maps plus the fallback members.  `defaultShader` and the other
raw-pointer members are `Option`s; `none` models a pointer that was never
assigned (the members have no initializer in RenderManager.h:291-299). -/

structure RenderManagerState where
  shaderMap : List (String × Shader) := []
  textureMap : List (String × Texture) := []
  meshMap : List (String × Mesh) := []
  materialMap : List (String × Material) := []
  fontMap : List (String × Font) := []
  spritesheetMap : List (String × SpriteSheet) := []
  defaultShader : Option Shader := none
  debugLineShader : Option Shader := none
  defaultMaterial : Option Material := none
  defaultSpriteSheet : Option SpriteSheet := none
  defaultMesh : Option Mesh := none
  errorTexture : Option Texture := none

/-- `RenderManager::RegisterShader(tag, unique_ptr)` (Mesh.cpp:813-821):
rejects (logs, no-op) when the tag is already registered. -/
def registerShader (st : RenderManagerState) (tag : String) (sh : Shader) :
    RenderManagerState :=
  if (findTag st.shaderMap tag).isSome then st
  else { st with shaderMap := st.shaderMap ++ [(tag, sh)] }

/-- `RenderManager::RegisterTexture(tag, unique_ptr)` (Mesh.cpp:833-842). -/
def registerTexture (st : RenderManagerState) (tag : String) (tx : Texture) :
    RenderManagerState :=
  if (findTag st.textureMap tag).isSome then st
  else { st with textureMap := st.textureMap ++ [(tag, tx)] }

/-- `RenderManager::RegisterMesh(tag, unique_ptr)` (Mesh.cpp:854-862). -/
def registerMesh (st : RenderManagerState) (tag : String) (me : Mesh) :
    RenderManagerState :=
  if (findTag st.meshMap tag).isSome then st
  else { st with meshMap := st.meshMap ++ [(tag, me)] }

/-- `RenderManager::RegisterMaterial(tag, unique_ptr)` (Mesh.cpp:894-902). -/
def registerMaterial (st : RenderManagerState) (tag : String)
    (ma : Material) : RenderManagerState :=
  if (findTag st.materialMap tag).isSome then st
  else { st with materialMap := st.materialMap ++ [(tag, ma)] }

/-- `RenderManager::RegisterFont(tag, unique_ptr)` (Mesh.cpp:925-933). -/
def registerFont (st : RenderManagerState) (tag : String) (f : Font) :
    RenderManagerState :=
  if (findTag st.fontMap tag).isSome then st
  else { st with fontMap := st.fontMap ++ [(tag, f)] }

/-- `RenderManager::GetTextureByTag` (Mesh.cpp:1143-1152): hit returns the
registered texture; miss logs an error and returns the `errorTexture`
member.  The second component records whether an error was logged. -/
def getTextureByTag (st : RenderManagerState) (tag : String) :
    Option Texture × Bool :=
  match findTag st.textureMap tag with
  | some tx => (some tx, false)
  | none => (st.errorTexture, true)

/-- `RenderManager::RegisterSpriteSheet(tag, textureTag, frameW, frameH)`
(Mesh.cpp:940-956): dup-check, then resolves the texture tag (error and
no-op when the resolved texture is null), then stores a new sheet built
from that texture (modelled by the `sheet` argument). -/
def registerSpriteSheet (st : RenderManagerState) (tag textureTag : String)
    (sheet : SpriteSheet) : RenderManagerState :=
  if (findTag st.spritesheetMap tag).isSome then st
  else
    match (getTextureByTag st textureTag).1 with
    | none => st
    | some _ => { st with spritesheetMap := st.spritesheetMap ++ [(tag, sheet)] }

/-- `RenderManager::GetShaderByTag` (Mesh.cpp:1129-1140): hit returns the
registered shader; miss logs an error and returns the `defaultShader`
member. -/
def getShaderByTag (st : RenderManagerState) (tag : String) :
    Option Shader × Bool :=
  match findTag st.shaderMap tag with
  | some sh => (some sh, false)
  | none => (st.defaultShader, true)

/-- `RenderManager::GetMeshByTag` (Mesh.cpp:1153-1163). -/
def getMeshByTag (st : RenderManagerState) (tag : String) :
    Option Mesh × Bool :=
  match findTag st.meshMap tag with
  | some me => (some me, false)
  | none => (st.defaultMesh, true)

/-- `RenderManager::GetMaterialByTag` (Mesh.cpp:1165-1175). -/
def getMaterialByTag (st : RenderManagerState) (tag : String) :
    Option Material × Bool :=
  match findTag st.materialMap tag with
  | some ma => (some ma, false)
  | none => (st.defaultMaterial, true)

/-- `RenderManager::GetSpriteSheetByTag` (Mesh.cpp:1117-1127). -/
def getSpriteSheetByTag (st : RenderManagerState) (tag : String) :
    Option SpriteSheet × Bool :=
  match findTag st.spritesheetMap tag with
  | some sheet => (some sheet, false)
  | none => (st.defaultSpriteSheet, true)

/-- `RenderManager::GetFontByTag` (Mesh.cpp:1177-1187): miss logs an error
and returns `nullptr`. -/
def getFontByTag (st : RenderManagerState) (tag : String) :
    Option Font × Bool :=
  match findTag st.fontMap tag with
  | some f => (some f, false)
  | none => (none, true)

/-- The registry effects of `RenderManager::Init` (Mesh.cpp:552-749),
with the GPU/GLSL work elided: the built-in shaders are stored by direct
`shaderMap[tag] = ...` assignment, the error texture / error material /
default mesh / default sprite sheet go through the Register functions, and
the fallback members are wired by `GetXByTag` lookups.  `defaultShader`
is never assigned anywhere in `Init` (or elsewhere in the repository). -/
def rmInit (st : RenderManagerState) : RenderManagerState :=
  -- shaderMap["[EngineShader]internal_text"] = ... (Mesh.cpp:587)
  let st := { st with
      shaderMap := storeTag st.shaderMap "[EngineShader]internal_text" ⟨0, false⟩ }
  -- shaderMap["[EngineShader]internal_debug_line"] = ... (Mesh.cpp:618)
  let st := { st with
      shaderMap :=
        storeTag st.shaderMap "[EngineShader]internal_debug_line" ⟨1, false⟩ }
  -- debugLineShader = GetShaderByTag(...) (Mesh.cpp:619)
  let st := { st with
      debugLineShader := (getShaderByTag st "[EngineShader]internal_debug_line").1 }
  -- shaderMap["[EngineShader]default"] = ... (Mesh.cpp:652)
  let st := { st with
      shaderMap := storeTag st.shaderMap "[EngineShader]default" ⟨2, false⟩ }
  -- RegisterTexture("[EngineTexture]error", checkerboard) (Mesh.cpp:674)
  let st := registerTexture st "[EngineTexture]error" ⟨100⟩
  -- errorTexture = GetTextureByTag(...) (Mesh.cpp:675)
  let st := { st with
      errorTexture := (getTextureByTag st "[EngineTexture]error").1 }
  -- shaderMap["[EngineShader]default_texture"] = ... (Mesh.cpp:713)
  let st := { st with
      shaderMap := storeTag st.shaderMap "[EngineShader]default_texture" ⟨3, false⟩ }
  -- Material(GetShaderByTag("[EngineShader]default_texture")) with the
  -- error texture bound to "u_ErrorTexture"; RegisterMaterial (714-717)
  let errMat : Material :=
    { mid := 200,
      shader := (getShaderByTag st "[EngineShader]default_texture").1,
      textures := match st.errorTexture with
        | some tx => [("u_ErrorTexture", tx)]
        | none => [] }
  let st := registerMaterial st "[EngineMaterial]error" errMat
  -- defaultMaterial = GetMaterialByTag(...) (Mesh.cpp:718)
  let st := { st with
      defaultMaterial := (getMaterialByTag st "[EngineMaterial]error").1 }
  -- RegisterMesh("[EngineMesh]default", quad) (Mesh.cpp:720-725)
  let st := registerMesh st "[EngineMesh]default" ⟨300, false⟩
  -- defaultMesh = GetMeshByTag(...) (Mesh.cpp:726)
  let st := { st with defaultMesh := (getMeshByTag st "[EngineMesh]default").1 }
  -- RegisterSpriteSheet("[EngineSpriteSheet]default", "[EngineTexture]error")
  let st := registerSpriteSheet st "[EngineSpriteSheet]default"
    "[EngineTexture]error" ⟨400⟩
  -- defaultSpriteSheet = GetSpriteSheetByTag(...) (Mesh.cpp:729)
  let st := { st with
      defaultSpriteSheet := (getSpriteSheetByTag st "[EngineSpriteSheet]default").1 }
  st

/-- The current game state, reduced to what the Unregister scans read:
`GetObjectManager().GetAllRawPtrObjects()`. -/
structure GameState where
  objects : List Object

/-- `RenderManager::UnregisterShader` (Mesh.cpp:958-982): not-found is a
no-op; otherwise, *only when a current GameState exists*, scan all live
objects and erase unless some object's material references the shader. -/
def unregisterShader (st : RenderManagerState) (tag : String)
    (currentState : Option GameState) : RenderManagerState :=
  match findTag st.shaderMap tag with
  | none => st
  | some target =>
      match currentState with
      | none => st
      | some gs =>
          if gs.objects.any (fun o =>
              match o.material with
              | some m => m.shader = some target
              | none => false) then st
          else { st with shaderMap := eraseTag st.shaderMap tag }

/-- `RenderManager::UnregisterTexture` (Mesh.cpp:984-1008). -/
def unregisterTexture (st : RenderManagerState) (tag : String)
    (currentState : Option GameState) : RenderManagerState :=
  match findTag st.textureMap tag with
  | none => st
  | some target =>
      match currentState with
      | none => st
      | some gs =>
          if gs.objects.any (fun o =>
              match o.material with
              | some m => m.hasTextureRef target
              | none => false) then st
          else { st with textureMap := eraseTag st.textureMap tag }

/-- `RenderManager::UnregisterMesh` (Mesh.cpp:1010-1033). -/
def unregisterMesh (st : RenderManagerState) (tag : String)
    (currentState : Option GameState) : RenderManagerState :=
  match findTag st.meshMap tag with
  | none => st
  | some target =>
      match currentState with
      | none => st
      | some gs =>
          if gs.objects.any (fun o => o.mesh = some target) then st
          else { st with meshMap := eraseTag st.meshMap tag }

/-- `RenderManager::UnregisterMaterial` (Mesh.cpp:1035-1058). -/
def unregisterMaterial (st : RenderManagerState) (tag : String)
    (currentState : Option GameState) : RenderManagerState :=
  match findTag st.materialMap tag with
  | none => st
  | some target =>
      match currentState with
      | none => st
      | some gs =>
          if gs.objects.any (fun o => o.material = some target) then st
          else { st with materialMap := eraseTag st.materialMap tag }

/-- `RenderManager::UnregisterFont` (Mesh.cpp:1060-1084). -/
def unregisterFont (st : RenderManagerState) (tag : String)
    (currentState : Option GameState) : RenderManagerState :=
  match findTag st.fontMap tag with
  | none => st
  | some target =>
      match currentState with
      | none => st
      | some gs =>
          if gs.objects.any (fun o => o.textFont = some target) then st
          else { st with fontMap := eraseTag st.fontMap tag }

/-- `RenderManager::UnregisterSpriteSheet` (Mesh.cpp:1091-1115). -/
def unregisterSpriteSheet (st : RenderManagerState) (tag : String)
    (currentState : Option GameState) : RenderManagerState :=
  match findTag st.spritesheetMap tag with
  | none => st
  | some target =>
      match currentState with
      | none => st
      | some gs =>
          if gs.objects.any (fun o =>
              match o.spriteAnimator with
              | some anim => anim.sheet = target
              | none => false) then st
          else { st with spritesheetMap := eraseTag st.spritesheetMap tag }

/-! ## Render map and batching (InstanceBatchKey.h, RenderManager.h:32-34,
Mesh.cpp:751-778) -/

/-- `InstanceBatchKey` (InstanceBatchKey.h): identity tuple of mesh,
material and sprite-sheet pointers; equality is pointer identity. -/
structure InstanceBatchKey where
  mesh : Mesh
  material : Material
  spriteSheet : Option SpriteSheet
deriving DecidableEq, Repr

/-- Inner map of a `ShaderMap`: `std::map<InstanceBatchKey,
std::vector<std::pair<Object*, Camera2D*>>>`, as an association list whose
order stands for the map's (pointer-determined) iteration order. -/
def BatchMapL : Type := List (InstanceBatchKey × List (Object × Option Camera2D))

/-- `ShaderMap` (RenderManager.h:32): `std::map<Shader*, BatchMap>`. -/
def ShaderMapL : Type := List (Shader × List (InstanceBatchKey × List (Object × Option Camera2D)))

/-- `RenderMap` (RenderManager.h:34): `std::array<ShaderMap, 16>`. -/
def RenderMapL : Type := Fin 16 → ShaderMapL

/-- The empty render map (all 16 layers empty). -/
def RenderMapL.empty : RenderMapL := fun _ => []

/-- `batchMap[key].emplace_back(e)`: append to the existing vector, or
create the entry. -/
def bmInsert (bm : List (InstanceBatchKey × List (Object × Option Camera2D)))
    (k : InstanceBatchKey) (e : Object × Option Camera2D) :
    List (InstanceBatchKey × List (Object × Option Camera2D)) :=
  match bm with
  | [] => [(k, [e])]
  | (k2, l) :: rest =>
      if k2 = k then (k2, l ++ [e]) :: rest else (k2, l) :: bmInsert rest k e

/-- `shaderMap[shader][key].emplace_back(e)`. -/
def smInsert (sm : ShaderMapL) (s : Shader) (k : InstanceBatchKey)
    (e : Object × Option Camera2D) : ShaderMapL :=
  match sm with
  | [] => [(s, bmInsert [] k e)]
  | (s2, bm) :: rest =>
      if s2 = s then (s2, bmInsert bm k e) :: rest
      else (s2, bm) :: smInsert rest s k e

/-- `renderMap[layer][shader][key].emplace_back(e)` (Mesh.cpp:777). -/
def rmInsertDraw (rm : RenderMapL) (L : Fin 16) (s : Shader)
    (k : InstanceBatchKey) (e : Object × Option Camera2D) : RenderMapL :=
  Function.update rm L (smInsert (rm L) s k e)

/-- Read a batch vector out of a batch map (`[]` when absent). -/
def bmFind (bm : List (InstanceBatchKey × List (Object × Option Camera2D)))
    (k : InstanceBatchKey) : List (Object × Option Camera2D) :=
  match bm with
  | [] => []
  | (k2, l) :: rest => if k2 = k then l else bmFind rest k

/-- Read a batch vector out of a shader map. -/
def smFind (sm : ShaderMapL) (s : Shader) (k : InstanceBatchKey) :
    List (Object × Option Camera2D) :=
  match sm with
  | [] => []
  | (s2, bm) :: rest => if s2 = s then bmFind bm k else smFind rest s k

/-- The batch vector stored at `renderMap[L][s][k]`. -/
def rmBatch (rm : RenderMapL) (L : Fin 16) (s : Shader)
    (k : InstanceBatchKey) : List (Object × Option Camera2D) :=
  smFind (rm L) s k

/-- `obj->GetSpriteAnimator() ? animator->GetSpriteSheet() : nullptr`
(Mesh.cpp:762). -/
def Object.spriteSheetOf (o : Object) : Option SpriteSheet :=
  o.spriteAnimator.map (fun a => a.sheet)

/-- The identity under which `BuildRenderMap` (Mesh.cpp:751-778) files an
object: `none` when the object is skipped (invisible, or missing
material/mesh/shader, or resolved layer out of range), otherwise the
(layer, shader, batch key) slot it is inserted into.  The layer is
`GetLayerID(obj->GetRenderLayerTag()).value_or(0)`. -/
def objIdentity (rlm : RenderLayerManager) (o : Object) :
    Option (Fin 16 × Shader × InstanceBatchKey) :=
  if !o.visible then none
  else
    match o.material, o.mesh with
    | some mat, some me =>
        match mat.shader with
        | some sh =>
            let layer : Nat := (rlm.getLayerID o.renderLayerTag).getD 0
            if h : layer < 16 then
              some (⟨layer, h⟩, sh, ⟨me, mat, o.spriteSheetOf⟩)
            else none  -- SNAKE_WRN "render skipped - invalid layer"
        | none => none
    | _, _ => none

/-- `RenderManager::BuildRenderMap` (Mesh.cpp:751-778): files each
eligible source object (paired with the camera) into
`renderMap[layer][shader][key]`, in source order. -/
def buildRenderMap (rlm : RenderLayerManager) (rm : RenderMapL)
    (source : List Object) (camera : Option Camera2D) : RenderMapL :=
  match source with
  | [] => rm
  | o :: rest =>
      match objIdentity rlm o with
      | none => buildRenderMap rlm rm rest camera
      | some (L, s, k) =>
          buildRenderMap rlm (rmInsertDraw rm L s k (o, camera)) rest camera

/-! ## FlushDrawCommands (Mesh.cpp:325-480)

The GPU side effects (material binds, uniform uploads, instance-buffer
uploads) are elided; the flush is modelled as the sequence of draw calls
it issues. -/

/-- One issued draw call: either a single instanced call for a whole batch
(`mesh->DrawInstanced`, Mesh.cpp:407) or an individual call for one object
(`mesh->Draw()`, Mesh.cpp:466). -/
inductive DrawEvent where
  | instanced (layer : Fin 16) (shader : Shader) (key : InstanceBatchKey)
      (instances : List (Object × Option Camera2D))
  | single (layer : Fin 16) (shader : Shader) (key : InstanceBatchKey)
      (obj : Object) (camera : Option Camera2D)
deriving DecidableEq, Repr

/-- The render layer a draw event was issued for. -/
def DrawEvent.layer : DrawEvent → Fin 16
  | .instanced L _ _ _ => L
  | .single L _ _ _ _ => L

/-- The draw calls `FlushDrawCommands` issues for one batch
(Mesh.cpp:336-468): if `batch.front().first->CanBeInstanced()` the whole
batch becomes one instanced call; otherwise each object gets its own call,
in batch order.  (Batches built by `BuildRenderMap` are never empty;
`batch.front()` on an empty vector would be undefined.) -/
def batchDraws (L : Fin 16) (s : Shader) (k : InstanceBatchKey)
    (batch : List (Object × Option Camera2D)) : List DrawEvent :=
  match batch with
  | [] => []
  | front :: rest =>
      if front.1.canBeInstanced then
        [.instanced L s k (front :: rest)]
      else
        (front :: rest).map (fun e => .single L s k e.1 e.2)

/-- The draw calls of one layer: iterate the shader groups, then the
batch-key groups (Mesh.cpp:332-336). -/
def layerDraws (L : Fin 16) (sm : ShaderMapL) : List DrawEvent :=
  sm.flatMap (fun p => p.2.flatMap (fun q => batchDraws L p.1 q.1 q.2))

/-- `RenderManager::FlushDrawCommands` (Mesh.cpp:325-480): layers are
iterated in ascending index order (`for layer = 0; layer < 16; ++layer`),
and afterwards every layer's map is cleared.  Result: the issued draw
calls, and the cleared render map. -/
def flushDrawCommands (rm : RenderMapL) : List DrawEvent × RenderMapL :=
  ((List.finRange 16).flatMap (fun L => layerDraws L (rm L)),
    fun _ => [])

/-! ## FrustumCuller (Mesh.cpp:304-323) -/

/-- `Camera2D::IsInView(pos, radius, viewportSize)`.  Modelled from the
spec: the implementation file (Camera2D.cpp) is not under src/; §4.5 and
the claim describe a circle-vs-rectangle test against the camera's
axis-aligned viewport rectangle derived from camera position, zoom and
viewport size. -/
def isInView (cam : Camera2D) (pos : ℚ × ℚ) (radius : ℚ)
    (viewportSize : ℚ × ℚ) : Bool :=
  let halfW := viewportSize.1 / (2 * cam.zoom)
  let halfH := viewportSize.2 / (2 * cam.zoom)
  decide (cam.pos.1 - halfW ≤ pos.1 + radius ∧
    pos.1 - radius ≤ cam.pos.1 + halfW ∧
    cam.pos.2 - halfH ≤ pos.2 + radius ∧
    pos.2 - radius ≤ cam.pos.2 + halfH)

/-- The inner loop of `FrustumCuller::CullVisible` (Mesh.cpp:307-322),
accumulating `outVisibleList.push_back` calls. -/
def cullLoop (cam : Camera2D) (objs : List Object) (vp : ℚ × ℚ)
    (acc : List Object) : List Object :=
  match objs with
  | [] => acc
  | o :: rest =>
      if !o.alive || !o.visible then cullLoop cam rest vp acc
      else if o.ignoreCamera then cullLoop cam rest vp (acc ++ [o])
      else if isInView cam o.worldPos o.boundingRadius vp then
        cullLoop cam rest vp (acc ++ [o])
      else cullLoop cam rest vp acc

/-- `FrustumCuller::CullVisible` (Mesh.cpp:304-323): clears the output
list (`outVisibleList.clear()`), then pushes every alive, visible object
that either ignores the camera or passes `IsInView`.  The previous
contents of the output list are discarded. -/
def cullVisible (cam : Camera2D) (allObjects : List Object)
    (_outVisibleList : List Object) (viewportSize : ℚ × ℚ) : List Object :=
  cullLoop cam allObjects viewportSize []

/-! ## SpatialHashGrid::ComputeCollisions -/

/-- Shape overlap (`Collider` double dispatch, §4.2).  Modelled from the
spec: the dispatch bodies are declared in Collider.h but implemented in a
file not under src/.  Circle-circle compares squared center distance with
the squared radius sum (strict, per Scenario B); circle-AABB clamps the
center to the box and compares the clamped distance with the radius;
AABB-AABB overlaps both axis intervals. -/
def shapesOverlap (a b : Collider) : Bool :=
  match a.shape, b.shape with
  | .circle ra, .circle rb =>
      decide ((a.worldPos.1 - b.worldPos.1) ^ 2 +
        (a.worldPos.2 - b.worldPos.2) ^ 2 < (ra + rb) ^ 2)
  | .circle r, .aabb hw hh =>
      let cx := max (b.worldPos.1 - hw) (min a.worldPos.1 (b.worldPos.1 + hw))
      let cy := max (b.worldPos.2 - hh) (min a.worldPos.2 (b.worldPos.2 + hh))
      decide ((a.worldPos.1 - cx) ^ 2 + (a.worldPos.2 - cy) ^ 2 ≤ r ^ 2)
  | .aabb hw hh, .circle r =>
      let cx := max (a.worldPos.1 - hw) (min b.worldPos.1 (a.worldPos.1 + hw))
      let cy := max (a.worldPos.2 - hh) (min b.worldPos.2 (a.worldPos.2 + hh))
      decide ((b.worldPos.1 - cx) ^ 2 + (b.worldPos.2 - cy) ^ 2 ≤ r ^ 2)
  | .aabb hwa hha, .aabb hwb hhb =>
      decide (|a.worldPos.1 - b.worldPos.1| ≤ hwa + hwb ∧
        |a.worldPos.2 - b.worldPos.2| ≤ hha + hhb)

/-- The per-pair test of the grid pass.  Modelled from the spec (§4.1,
§4.3): ObjectManager's collision pass is not under src/.  A pair is
reported when both objects are alive, both have colliders, the
category/mask filter passes in the single implemented direction (the
tested object's category against the other object's mask), and the shapes
overlap. -/
def collisionPairHit (a b : Object) : Bool :=
  a.alive && b.alive &&
    (match a.collider, b.collider with
     | some ca, some cb =>
         (a.collisionCategory.land b.collisionMask ≠ 0) && shapesOverlap ca cb
     | _, _ => false)

/-- All reported pairs of one cell bucket, pairwise in insertion order.
Modelled from the spec (§4.1): "for each cell, performs pairwise tests
between all objects in that cell's bucket ... the callback is invoked once
with both objects in insertion order". -/
def cellPairs (bucket : List Object) : List (Object × Object) :=
  match bucket with
  | [] => []
  | a :: rest =>
      rest.filterMap (fun b => if collisionPairHit a b then some (a, b) else none)
        ++ cellPairs rest

/-- `SpatialHashGrid::ComputeCollisions` (declared Collider.h:643; body
modelled from the spec, §4.1): iterate every occupied cell and report the
filtered pairs of its bucket.  The grid is the cell → bucket map, given as
the list of occupied buckets. -/
def computeCollisions (grid : List (List Object)) : List (Object × Object) :=
  grid.flatMap cellPairs

/-! ## Theorems -/

/-- C9: a Material's instancing flag is monotone: once `EnableInstancing`
has set `isInstancingEnabled` to true, no later `EnableInstancing` call —
including `EnableInstancing(false, mesh)` — ever clears it. -/
theorem enableInstancing_monotone (m : Material) (enable : Bool)
    (mesh : Option Mesh) (h : m.isInstancingEnabled = true) :
    ((m.enableInstancing enable mesh).1).isInstancingEnabled = true := by
  unfold Material.enableInstancing
  cases hs : m.shader with
  | none => simp [h]
  | some sh => cases hsup : sh.supportsInstancing <;> simp [h]

/-- Witness for C9: a material with the flag set and an instancing-capable
shader keeps the flag across `EnableInstancing(false, mesh)`. -/
theorem enableInstancing_monotone_witness :
    (({ mid := 1, shader := some ⟨5, true⟩, isInstancingEnabled := true } :
        Material).isInstancingEnabled = true) ∧
      ((({ mid := 1, shader := some ⟨5, true⟩, isInstancingEnabled := true } :
        Material).enableInstancing false (some ⟨7, false⟩)).1).isInstancingEnabled
        = true :=
  ⟨rfl, enableInstancing_monotone
    { mid := 1, shader := some ⟨5, true⟩, isInstancingEnabled := true }
    false (some ⟨7, false⟩) rfl⟩

/-- C7: for every (tag, id) pair for which `RegisterLayer` succeeds, the
subsequent lookups satisfy `GetLayerID(tag) == id` and
`GetLayerName(id) == tag`. -/
theorem registerLayer_roundtrip (st : RenderLayerManager) (tag : String)
    (layer : Nat) (h : (st.registerLayer tag layer).1 = true) :
    ∃ h16 : layer < 16,
      ((st.registerLayer tag layer).2).getLayerID tag = some layer ∧
      ((st.registerLayer tag layer).2).getLayerName ⟨layer, h16⟩ = tag := by
  unfold RenderLayerManager.registerLayer at h ⊢
  by_cases hdup : (findTag st.nameToID tag).isSome
  · simp [hdup] at h
  · by_cases h16 : layer < 16
    · by_cases hocc : st.idToName ⟨layer, h16⟩ ≠ ""
      · simp [hdup, h16, hocc] at h
      · refine ⟨h16, ?_, ?_⟩
        · simp [hdup, h16, hocc, RenderLayerManager.getLayerID, findTag]
        · simp [hdup, h16, hocc, RenderLayerManager.getLayerName]
    · simp [hdup, h16] at h

/-- Witness for C7: registering "Background" at id 0 on a fresh manager
succeeds and both lookups round-trip. -/
theorem registerLayer_roundtrip_witness :
    ((RenderLayerManager.empty.registerLayer "Background" 0).1 = true) ∧
      ∃ h16 : 0 < 16,
        ((RenderLayerManager.empty.registerLayer "Background" 0).2).getLayerID
          "Background" = some 0 ∧
        ((RenderLayerManager.empty.registerLayer "Background" 0).2).getLayerName
          ⟨0, h16⟩ = "Background" :=
  ⟨rfl, registerLayer_roundtrip RenderLayerManager.empty "Background" 0 rfl⟩

/-- C10: with no current GameState, every Unregister call leaves its
registry unchanged — erasure happens only inside the branch where a
current state exists. -/
theorem unregister_without_current_state_noop (st : RenderManagerState)
    (tag : String) :
    unregisterShader st tag none = st ∧
    unregisterTexture st tag none = st ∧
    unregisterMesh st tag none = st ∧
    unregisterMaterial st tag none = st ∧
    unregisterFont st tag none = st ∧
    unregisterSpriteSheet st tag none = st := by
  refine ⟨?_, ?_, ?_, ?_, ?_, ?_⟩
  · unfold unregisterShader
    cases findTag st.shaderMap tag <;> rfl
  · unfold unregisterTexture
    cases findTag st.textureMap tag <;> rfl
  · unfold unregisterMesh
    cases findTag st.meshMap tag <;> rfl
  · unfold unregisterMaterial
    cases findTag st.materialMap tag <;> rfl
  · unfold unregisterFont
    cases findTag st.fontMap tag <;> rfl
  · unfold unregisterSpriteSheet
    cases findTag st.spritesheetMap tag <;> rfl

/-- C6: a second registration under an already-registered tag is a no-op
for every resource registry: the state (and hence the first registration's
entry) is unchanged. -/
theorem register_duplicate_tag_noop (st : RenderManagerState)
    (tag : String) :
    (∀ sh, (findTag st.shaderMap tag).isSome = true →
      registerShader st tag sh = st) ∧
    (∀ tx, (findTag st.textureMap tag).isSome = true →
      registerTexture st tag tx = st) ∧
    (∀ me, (findTag st.meshMap tag).isSome = true →
      registerMesh st tag me = st) ∧
    (∀ ma, (findTag st.materialMap tag).isSome = true →
      registerMaterial st tag ma = st) ∧
    (∀ f, (findTag st.fontMap tag).isSome = true →
      registerFont st tag f = st) ∧
    (∀ ttag sheet, (findTag st.spritesheetMap tag).isSome = true →
      registerSpriteSheet st tag ttag sheet = st) := by
  refine ⟨?_, ?_, ?_, ?_, ?_, ?_⟩ <;> intro x
  · intro hx; simp [registerShader, hx]
  · intro hx; simp [registerTexture, hx]
  · intro hx; simp [registerMesh, hx]
  · intro hx; simp [registerMaterial, hx]
  · intro hx; simp [registerFont, hx]
  · intro sheet hx; simp [registerSpriteSheet, hx]

/-- A registry state with the tag "t" registered in all six maps (for the
C6 witness). -/
def stDup : RenderManagerState :=
  { shaderMap := [("t", ⟨0, false⟩)],
    textureMap := [("t", ⟨1⟩)],
    meshMap := [("t", ⟨2, false⟩)],
    materialMap := [("t", ⟨3, none, false, []⟩)],
    fontMap := [("t", ⟨4⟩)],
    spritesheetMap := [("t", ⟨5⟩)] }

/-- Witness for C6: re-registering the already-present tag "t" leaves the
state unchanged in each of the six registries. -/
theorem register_duplicate_tag_noop_witness :
    registerShader stDup "t" ⟨9, false⟩ = stDup ∧
    registerTexture stDup "t" ⟨9⟩ = stDup ∧
    registerMesh stDup "t" ⟨9, false⟩ = stDup ∧
    registerMaterial stDup "t" ⟨9, none, false, []⟩ = stDup ∧
    registerFont stDup "t" ⟨9⟩ = stDup ∧
    registerSpriteSheet stDup "t" "t" ⟨9⟩ = stDup :=
  ⟨(register_duplicate_tag_noop stDup "t").1 _ rfl,
   (register_duplicate_tag_noop stDup "t").2.1 _ rfl,
   (register_duplicate_tag_noop stDup "t").2.2.1 _ rfl,
   (register_duplicate_tag_noop stDup "t").2.2.2.1 _ rfl,
   (register_duplicate_tag_noop stDup "t").2.2.2.2.1 _ rfl,
   (register_duplicate_tag_noop stDup "t").2.2.2.2.2 _ _ rfl⟩

/-- C4 (failing part, shader registry): after `RenderManager::Init`, a
lookup of an unregistered shader tag logs an error but returns the
`defaultShader` member, which `Init` (and the whole repository) never
assigns — it is NOT the registered default shader, even though
`"[EngineShader]default"` is registered in the map.  The texture, mesh and
material lookups do return their registered fallbacks. -/
theorem getShaderByTag_missing_returns_never_assigned_default :
    (rmInit {}).defaultShader = none ∧
    getShaderByTag (rmInit {}) "no_such_tag" = (none, true) ∧
    (findTag (rmInit {}).shaderMap "[EngineShader]default").isSome = true ∧
    getTextureByTag (rmInit {}) "no_such_tag" =
      ((rmInit {}).errorTexture, true) ∧
    (rmInit {}).errorTexture = some ⟨100⟩ ∧
    getMeshByTag (rmInit {}) "no_such_tag" = ((rmInit {}).defaultMesh, true) ∧
    (rmInit {}).defaultMesh = some ⟨300, false⟩ ∧
    getMaterialByTag (rmInit {}) "no_such_tag" =
      ((rmInit {}).defaultMaterial, true) ∧
    ((rmInit {}).defaultMaterial).isSome = true := by
  decide

/-- C5: `CullVisible` discards the previous output list and includes
exactly the alive, visible objects that either ignore the camera or whose
bounding circle passes the view test. -/
theorem cullVisible_filters_alive_visible_inview (cam : Camera2D)
    (objs prev : List Object) (vp : ℚ × ℚ) :
    cullVisible cam objs prev vp =
      objs.filter (fun o => o.alive && o.visible &&
        (o.ignoreCamera || isInView cam o.worldPos o.boundingRadius vp)) := by
  unfold cullVisible
  suffices h : ∀ (l : List Object) (acc : List Object),
      cullLoop cam l vp acc = acc ++ l.filter (fun o => o.alive && o.visible &&
        (o.ignoreCamera || isInView cam o.worldPos o.boundingRadius vp)) by
    simpa using h objs []
  intro l
  induction l with
  | nil => intro acc; simp [cullLoop]
  | cons o rest ih =>
      intro acc
      cases halive : o.alive <;> cases hvis : o.visible <;>
        cases hig : o.ignoreCamera <;>
        cases hin : isInView cam o.worldPos o.boundingRadius vp <;>
        simp [cullLoop, halive, hvis, hig, hin, ih, List.filter]

/-- C8: `ComputeCollisions` never reports a pair whose category/mask
bitwise-AND, in the implemented single direction, is zero: every reported
pair's first (tested) object has category bits intersecting the second
object's collision mask. -/
theorem computeCollisions_category_mask_filter (grid : List (List Object))
    (p : Object × Object) (h : p ∈ computeCollisions grid) :
    p.1.collisionCategory.land p.2.collisionMask ≠ 0 := by
  unfold computeCollisions at h
  rw [List.mem_flatMap] at h
  obtain ⟨bucket, -, hb⟩ := h
  induction bucket with
  | nil => simp [cellPairs] at hb
  | cons a rest ih =>
      rw [cellPairs, List.mem_append] at hb
      rcases hb with h1 | h2
      · rw [List.mem_filterMap] at h1
        obtain ⟨b, -, hbe⟩ := h1
        by_cases hc : collisionPairHit a b = true
        · rw [if_pos hc] at hbe
          obtain rfl : (a, b) = p := by injection hbe
          unfold collisionPairHit at hc
          cases hca : a.collider with
          | none => rw [hca] at hc; simp at hc
          | some ca =>
              cases hcb : b.collider with
              | none => rw [hca, hcb] at hc; simp at hc
              | some cb =>
                  rw [hca, hcb] at hc
                  simp only [Bool.and_eq_true, decide_eq_true_eq] at hc
                  exact hc.2.1
        · rw [if_neg hc] at hbe
          cases hbe
      · exact ih h2

/-- Two overlapping circle colliders at the origin whose category/mask
bits target each other (for the C8 witness). -/
def objColA : Object :=
  { oid := 1, collider := some ⟨.circle 10, (0, 0)⟩,
    collisionCategory := 1, collisionMask := 2 }

/-- Second collision witness object. -/
def objColB : Object :=
  { oid := 2, collider := some ⟨.circle 10, (0, 0)⟩,
    collisionCategory := 2, collisionMask := 1 }

/-- Witness for C8: the grid holding one cell with both objects reports
the pair, and its category∧mask is nonzero. -/
theorem computeCollisions_category_mask_filter_witness :
    ((objColA, objColB) ∈ computeCollisions [[objColA, objColB]]) ∧
      objColA.collisionCategory.land objColB.collisionMask ≠ 0 := by
  have hhit : collisionPairHit objColA objColB = true := by
    have hland : Nat.land 1 1 ≠ 0 := by decide
    simp only [collisionPairHit, objColA, objColB, shapesOverlap]
    norm_num [hland]
  have hmem : (objColA, objColB) ∈ computeCollisions [[objColA, objColB]] := by
    simp [computeCollisions, cellPairs, hhit]
  exact ⟨hmem, computeCollisions_category_mask_filter [[objColA, objColB]]
    (objColA, objColB) hmem⟩

/-- The claim's reading of "instancing-capable": the object has a mesh and
a material, the material's instancing flag is on, and the material's
shader reports instancing support. -/
def instancingCapable (o : Object) : Prop :=
  o.mesh.isSome = true ∧ ∃ m, o.material = some m ∧
    m.isInstancingEnabled = true ∧
    ∃ sh, m.shader = some sh ∧ sh.supportsInstancing = true

/-- `Object::CanBeInstanced` decides exactly the claim's capability
condition. -/
theorem canBeInstanced_iff_capable (o : Object) :
    o.canBeInstanced = true ↔ instancingCapable o := by
  unfold Object.canBeInstanced instancingCapable Material.isInstancingSupported
  cases hm : o.material with
  | none => simp
  | some m =>
      cases hsh : m.shader with
      | none => simp [hsh]
      | some sh => simp [hsh, and_assoc]

/-- C1: `FlushDrawCommands` draws a batch via the instanced path exactly
when the batch's representative (front) object is instancing-capable —
it has a mesh and a material, the material's instancing flag is enabled,
and the material's shader reports instancing support; otherwise every
object of the batch gets its own individual draw call, in batch order.
(`batchDraws` is the per-batch step of `flushDrawCommands`.) -/
theorem flush_instanced_path_iff_capable (L : Fin 16) (s : Shader)
    (k : InstanceBatchKey) (front : Object × Option Camera2D)
    (rest : List (Object × Option Camera2D)) :
    (batchDraws L s k (front :: rest) =
        [DrawEvent.instanced L s k (front :: rest)] ↔
      instancingCapable front.1) ∧
    (¬ instancingCapable front.1 →
      batchDraws L s k (front :: rest) =
        (front :: rest).map (fun e => DrawEvent.single L s k e.1 e.2)) := by
  by_cases hc : front.1.canBeInstanced = true
  · have hcap := (canBeInstanced_iff_capable front.1).mp hc
    refine ⟨⟨fun _ => hcap, fun _ => ?_⟩, fun hn => absurd hcap hn⟩
    simp [batchDraws, hc]
  · have hncap : ¬ instancingCapable front.1 := fun hcap =>
      hc ((canBeInstanced_iff_capable front.1).mpr hcap)
    have heq : batchDraws L s k (front :: rest) =
        (front :: rest).map (fun e => DrawEvent.single L s k e.1 e.2) := by
      simp [batchDraws, hc]
    refine ⟨⟨fun habs => ?_, fun hcap => absurd hcap hncap⟩, fun _ => heq⟩
    rw [heq] at habs
    simp at habs

/-- Material with the instancing flag on, over an instancing-capable
shader (for the C1 witness). -/
def matCapable : Material :=
  { mid := 1, shader := some ⟨2, true⟩, isInstancingEnabled := true }

/-- Material with the instancing flag off (for the C1 witness). -/
def matPlain : Material :=
  { mid := 1, shader := some ⟨2, true⟩, isInstancingEnabled := false }

/-- An instancing-capable object (for the C1 witness). -/
def objCapable : Object :=
  { oid := 3, mesh := some ⟨1, false⟩, material := some matCapable }

/-- A non-capable object: its material's instancing flag is off (for the
C1 witness). -/
def objPlain : Object :=
  { oid := 4, mesh := some ⟨1, false⟩, material := some matPlain }

/-- The shader the C1 witness batches under. -/
def shaderW : Shader := ⟨2, true⟩

/-- Batch key of the C1 witness. -/
def keyW : InstanceBatchKey := ⟨⟨1, false⟩, matCapable, none⟩

/-- Witness for C1: a capable front object yields exactly one instanced
draw; a non-capable front object yields per-object draws. -/
theorem flush_instanced_path_iff_capable_witness :
    (batchDraws 0 shaderW keyW [(objCapable, none), (objCapable, none)] =
      [DrawEvent.instanced 0 shaderW keyW
        [(objCapable, none), (objCapable, none)]]) ∧
    (batchDraws 0 shaderW keyW [(objPlain, none), (objPlain, none)] =
      [(objPlain, (none : Option Camera2D)),
        (objPlain, none)].map (fun e => DrawEvent.single 0 shaderW keyW e.1 e.2)) := by
  constructor
  · exact (flush_instanced_path_iff_capable 0 shaderW keyW (objCapable, none)
      [(objCapable, none)]).1.mpr
      ⟨rfl, matCapable, rfl, rfl, ⟨2, true⟩, rfl, rfl⟩
  · exact (flush_instanced_path_iff_capable 0 shaderW keyW (objPlain, none)
      [(objPlain, none)]).2
      (fun hcap => by
        obtain ⟨-, m, hm, hflag, -⟩ := hcap
        obtain rfl : matPlain = m := by injection hm
        simp [matPlain] at hflag)

/-- Every draw event a batch emits carries the layer it was emitted
for. -/
theorem batchDraws_layer_eq (L : Fin 16) (s : Shader) (k : InstanceBatchKey)
    (batch : List (Object × Option Camera2D)) :
    ∀ e ∈ batchDraws L s k batch, e.layer = L := by
  intro e he
  cases batch with
  | nil => simp [batchDraws] at he
  | cons front rest =>
      by_cases hc : front.1.canBeInstanced = true
      · simp [batchDraws, hc] at he
        subst he; rfl
      · simp [batchDraws, hc] at he
        rcases he with rfl | ⟨a, b, -, rfl⟩ <;> rfl

/-- Every draw event of a layer's pass carries that layer. -/
theorem layerDraws_layer_eq (L : Fin 16) (sm : ShaderMapL) :
    ∀ e ∈ layerDraws L sm, e.layer = L := by
  intro e he
  unfold layerDraws at he
  rw [List.mem_flatMap] at he
  obtain ⟨p, -, hp⟩ := he
  rw [List.mem_flatMap] at hp
  obtain ⟨q, -, hq⟩ := hp
  exact batchDraws_layer_eq L p.1 q.1 q.2 e hq

/-- The flush trace is sorted by layer: layers are iterated in ascending
index order. -/
theorem flush_trace_pairwise (rm : RenderMapL) :
    ((flushDrawCommands rm).1).Pairwise (fun a b => a.layer ≤ b.layer) := by
  show ((List.finRange 16).flatMap
    (fun L => layerDraws L (rm L))).Pairwise _
  rw [List.flatMap_def, List.pairwise_flatten]
  constructor
  · intro l2 hl2
    rw [List.mem_map] at hl2
    obtain ⟨L, -, rfl⟩ := hl2
    apply List.pairwise_of_forall_mem_list
    intro a ha b hb
    rw [layerDraws_layer_eq L (rm L) a ha, layerDraws_layer_eq L (rm L) b hb]
  · rw [List.pairwise_map]
    refine (List.pairwise_lt_finRange 16).imp ?_
    intro L1 L2 hlt x hx y hy
    rw [layerDraws_layer_eq L1 (rm L1) x hx, layerDraws_layer_eq L2 (rm L2) y hy]
    exact le_of_lt hlt

/-- C2: in `FlushDrawCommands`, for any two positions in the issued
draw-call sequence, if the first position's layer is strictly below the
second position's layer, the first draw is issued earlier — all of a lower
layer's draws precede any higher layer's draws, because layers are
iterated in ascending index order. -/
theorem flush_layer_ascending_order (rm : RenderMapL) (i j : Nat)
    (hi : i < ((flushDrawCommands rm).1).length)
    (hj : j < ((flushDrawCommands rm).1).length)
    (hlt : (((flushDrawCommands rm).1).get ⟨i, hi⟩).layer <
      (((flushDrawCommands rm).1).get ⟨j, hj⟩).layer) :
    i < j := by
  by_contra hnot
  push_neg at hnot
  have hp := flush_trace_pairwise rm
  rw [List.pairwise_iff_get] at hp
  rcases Nat.lt_or_ge j i with hji | hij2
  · have hle := hp ⟨j, hj⟩ ⟨i, hi⟩ (Fin.mk_lt_mk.mpr hji)
    exact absurd (lt_of_lt_of_le hlt hle) (lt_irrefl _)
  · have : i = j := Nat.le_antisymm hij2 hnot
    subst this
    exact absurd hlt (lt_irrefl _)

/-- A two-layer render map: one single-object batch in layer 0 and one in
layer 1 (for the C2 witness). -/
def rmW : RenderMapL := fun L =>
  if L.val = 0 then [(shaderW, [(keyW, [(objPlain, none)])])]
  else if L.val = 1 then [(shaderW, [(keyW, [(objPlain, none)])])]
  else []

/-- Witness for C2: in the two-layer map, the layer-0 draw at position 0
precedes the layer-1 draw at position 1. -/
theorem flush_layer_ascending_order_witness :
    ∃ hi : 0 < ((flushDrawCommands rmW).1).length,
    ∃ hj : 1 < ((flushDrawCommands rmW).1).length,
      ((((flushDrawCommands rmW).1).get ⟨0, hi⟩).layer <
        (((flushDrawCommands rmW).1).get ⟨1, hj⟩).layer) ∧ 0 < 1 :=
  ⟨by decide, by decide, by decide,
    flush_layer_ascending_order rmW 0 1 (by decide) (by decide) (by decide)⟩

/-- Appending an entry to a batch map extends the vector stored under its
key. -/
theorem bmFind_bmInsert_self
    (bm : List (InstanceBatchKey × List (Object × Option Camera2D)))
    (k : InstanceBatchKey) (e : Object × Option Camera2D) :
    bmFind (bmInsert bm k e) k = bmFind bm k ++ [e] := by
  induction bm with
  | nil => simp [bmInsert, bmFind]
  | cons p rest ih =>
      obtain ⟨k2, l⟩ := p
      by_cases h : k2 = k
      · subst h; simp [bmInsert, bmFind]
      · simp [bmInsert, bmFind, h, ih]

/-- Appending an entry to a batch map leaves other keys' vectors
unchanged. -/
theorem bmFind_bmInsert_ne
    (bm : List (InstanceBatchKey × List (Object × Option Camera2D)))
    (k : InstanceBatchKey) (e : Object × Option Camera2D)
    (k2 : InstanceBatchKey) (h : k2 ≠ k) :
    bmFind (bmInsert bm k e) k2 = bmFind bm k2 := by
  induction bm with
  | nil => simp [bmInsert, bmFind, Ne.symm h]
  | cons p rest ih =>
      obtain ⟨k3, l⟩ := p
      simp only [bmInsert]
      by_cases h3 : k3 = k
      · subst h3
        rw [if_pos rfl]
        simp only [bmFind]
        rw [if_neg (fun hx => h hx.symm), if_neg (fun hx => h hx.symm)]
      · rw [if_neg h3]
        simp only [bmFind]
        by_cases hq : k3 = k2
        · rw [if_pos hq, if_pos hq]
        · rw [if_neg hq, if_neg hq]
          exact ih

/-- Inserting extends the vector at the addressed (shader, key) slot. -/
theorem smFind_smInsert_self (sm : ShaderMapL) (s : Shader)
    (k : InstanceBatchKey) (e : Object × Option Camera2D) :
    smFind (smInsert sm s k e) s k = smFind sm s k ++ [e] := by
  induction sm with
  | nil => simp [smInsert, smFind, bmFind_bmInsert_self, bmFind]
  | cons p rest ih =>
      obtain ⟨s2, bm⟩ := p
      simp only [smInsert]
      by_cases h : s2 = s
      · subst h
        rw [if_pos rfl]
        simp only [smFind]
        simp [bmFind_bmInsert_self bm k e]
      · rw [if_neg h]
        simp only [smFind]
        rw [if_neg h, if_neg h]
        exact ih

/-- Inserting leaves every other (shader, key) slot unchanged. -/
theorem smFind_smInsert_ne (sm : ShaderMapL) (s : Shader)
    (k : InstanceBatchKey) (e : Object × Option Camera2D) (s2 : Shader)
    (k2 : InstanceBatchKey) (h : ¬(s2 = s ∧ k2 = k)) :
    smFind (smInsert sm s k e) s2 k2 = smFind sm s2 k2 := by
  induction sm with
  | nil =>
      simp only [smInsert, smFind]
      by_cases hs : s = s2
      · rw [if_pos hs]
        have hk : k2 ≠ k := fun hk2 => h ⟨hs.symm, hk2⟩
        rw [bmFind_bmInsert_ne [] k e k2 hk]
        simp [bmFind]
      · rw [if_neg hs]
  | cons p rest ih =>
      obtain ⟨s3, bm⟩ := p
      simp only [smInsert]
      by_cases h3 : s3 = s
      · subst h3
        rw [if_pos rfl]
        simp only [smFind]
        by_cases hs : s3 = s2
        · rw [if_pos hs, if_pos hs]
          have hk : k2 ≠ k := fun hk2 => h ⟨hs.symm, hk2⟩
          exact bmFind_bmInsert_ne bm k e k2 hk
        · rw [if_neg hs, if_neg hs]
      · rw [if_neg h3]
        simp only [smFind]
        by_cases hq : s3 = s2
        · rw [if_pos hq, if_pos hq]
        · rw [if_neg hq, if_neg hq]
          exact ih

/-- Inserting extends the addressed (layer, shader, key) batch. -/
theorem rmBatch_insert_self (rm : RenderMapL) (L : Fin 16) (s : Shader)
    (k : InstanceBatchKey) (e : Object × Option Camera2D) :
    rmBatch (rmInsertDraw rm L s k e) L s k = rmBatch rm L s k ++ [e] := by
  unfold rmBatch rmInsertDraw
  rw [Function.update_same]
  exact smFind_smInsert_self (rm L) s k e

/-- Inserting leaves every other (layer, shader, key) batch unchanged. -/
theorem rmBatch_insert_ne (rm : RenderMapL) (L : Fin 16) (s : Shader)
    (k : InstanceBatchKey) (e : Object × Option Camera2D) (L2 : Fin 16)
    (s2 : Shader) (k2 : InstanceBatchKey)
    (h : ¬(L2 = L ∧ s2 = s ∧ k2 = k)) :
    rmBatch (rmInsertDraw rm L s k e) L2 s2 k2 = rmBatch rm L2 s2 k2 := by
  unfold rmBatch rmInsertDraw
  by_cases hL : L2 = L
  · subst hL
    rw [Function.update_same]
    exact smFind_smInsert_ne (rm L2) s k e s2 k2 (fun hx => h ⟨rfl, hx⟩)
  · rw [Function.update_noteq hL]

/-- C3: `BuildRenderMap` files every submitted drawable of a given
(layer, shader, mesh/material/spritesheet) identity into exactly that one
batch list, appended in submission order — the batch at each slot becomes
the previous contents followed by the identity's objects in source
order, and no other slot receives them. -/
theorem buildRenderMap_groups_by_identity (rlm : RenderLayerManager)
    (rm : RenderMapL) (source : List Object) (cam : Option Camera2D)
    (L : Fin 16) (s : Shader) (k : InstanceBatchKey) :
    rmBatch (buildRenderMap rlm rm source cam) L s k =
      rmBatch rm L s k ++
        (source.filter (fun o => objIdentity rlm o = some (L, s, k))).map
          (fun o => (o, cam)) := by
  induction source generalizing rm with
  | nil => simp [buildRenderMap]
  | cons o rest ih =>
      unfold buildRenderMap
      cases hid : objIdentity rlm o with
      | none =>
          rw [ih]
          simp [List.filter_cons, hid]
      | some t =>
          obtain ⟨L2, s2, k2⟩ := t
          rw [ih]
          by_cases he : L2 = L ∧ s2 = s ∧ k2 = k
          · obtain ⟨rfl, rfl, rfl⟩ := he
            rw [rmBatch_insert_self]
            simp [List.filter_cons, hid, List.append_assoc]
          · rw [rmBatch_insert_ne rm L2 s2 k2 (o, cam) L s k
              (fun hx => he ⟨hx.1.symm, hx.2.1.symm, hx.2.2.symm⟩)]
            have hf : ¬(objIdentity rlm o = some (L, s, k)) := by
              rw [hid]
              intro hcon
              simp only [Option.some.injEq, Prod.mk.injEq] at hcon
              exact he ⟨hcon.1, hcon.2.1, hcon.2.2⟩
            simp [List.filter_cons, hf]

end Snake
